import Mathlib

/-!
Verification model of the mirror_bridge reflection-and-marshaling engine.

The repository ships the engine as a native (C++) single header together with
Python end-to-end tests; only the Python tests are available here.  The engine
itself is therefore modelled from the specification (definitions marked
`Modelled from the spec:`), with every observable choice pinned down by the
repository's own end-to-end test assertions (cited in comments).  Floating
point payloads are modelled by exact integers: every concrete value exercised
by the specification's scenarios is integral, and the claims under study are
about marshaling, dispatch and exception flow, not rounding.
-/

namespace MB

/-- Modelled from the spec: primitive kinds of the TypeRef data model (§3). -/
inductive PrimKind
  | pInt
  | pDouble
  | pBool
deriving DecidableEq, Repr

/-- Modelled from the spec: SmartHandle ownership, exclusive or shared (§3). -/
inductive Ownership
  | exclusive
  | shared
deriving DecidableEq, Repr

/-- Modelled from the spec: the TypeRef tagged variant (§3).  Class references
are by fully-qualified native name. -/
inductive TypeRef
  | Primitive : PrimKind → TypeRef
  | Text : TypeRef
  | Sequence : TypeRef → Option Nat → TypeRef
  | SmartHandle : Ownership → String → TypeRef
  | ClassValue : String → TypeRef
  | Function : Option TypeRef → List TypeRef → TypeRef

/-- Host-side callables are modelled by a closed inductive: a callback either
accumulates its integer argument as an observable event, or raises a host
exception of a given kind (for example "ValueError") with a message
(`tests/e2e/callbacks/test_callbacks.py`). -/
inductive Callback
  | accum
  | raises (kind : String) (msg : String)
deriving Repr

/-- Host-runtime values.  `vnone` is the host's single "no value" marker
(Python `None`); `vref` is a handle to a bound native-backed instance living
in the host `Store`; `vdict` is a raw associative map; `vfunc` a host
callable. -/
inductive HostValue
  | vnone
  | vint (i : Int)
  | vfloat (x : Int)
  | vbool (b : Bool)
  | vstr (s : String)
  | vlist (xs : List HostValue)
  | vdict (entries : List (String × HostValue))
  | vref (r : Nat)
  | vfunc (cb : Callback)

/-- Discriminator: is this host value a raw associative map? -/
def HostValue.isDict : HostValue → Bool
  | .vdict _ => true
  | _ => false

/-- Discriminator: is this host value a bound native-backed instance? -/
def HostValue.isBoundInstance : HostValue → Bool
  | .vref _ => true
  | _ => false

/-- Discriminator: is this host value the "no value" marker? -/
def HostValue.isNoValue : HostValue → Bool
  | .vnone => true
  | _ => false

/-- Native values stored inside a native object.  A `nObj` is a class value
held inline (value semantics); an `nHandle` is a smart pointer, null or
holding its pointee's state; `nFun` is a native functor slot. -/
inductive NValue
  | nInt (i : Int)
  | nFloat (x : Int)
  | nBool (b : Bool)
  | nStr (s : String)
  | nSeq (xs : List NValue)
  | nObj (fields : List (String × NValue))
  | nHandle (own : Ownership) (payload : Option (List (String × NValue)))
  | nFun (cb : Option Callback)

/-- Errors surfaced on the host error channel.  `kind` is the host exception
class name (the end-to-end tests catch `RuntimeError`). -/
structure HostError where
  kind : String
  message : String
deriving DecidableEq, Repr

/-- Faults arising while a native body executes: a native exception thrown by
the body itself, or a host error raised by a callback invoked from the native
frame (spec §4.5). -/
inductive Fault
  | native (msg : String)
  | callback (kind : String) (msg : String)
deriving DecidableEq, Repr

/-- Association-list lookup by string key, first binding wins. -/
def lookupS {α : Type} : List (String × α) → String → Option α
  | [], _ => none
  | (k', v) :: t, k => if k' = k then some v else lookupS t k

/-- Association-list update by string key; leaves the list unchanged when the
key is absent. -/
def updateS {α : Type} : List (String × α) → String → α → List (String × α)
  | [], _, _ => []
  | (k', v') :: t, k, v => if k' = k then (k', v) :: t else (k', v') :: updateS t k v

/-- Association-list lookup by numeric reference. -/
def lookupN {α : Type} : List (Nat × α) → Nat → Option α
  | [], _ => none
  | (k', v) :: t, k => if k' = k then some v else lookupN t k

/-- Association-list update by numeric reference. -/
def updateN {α : Type} : List (Nat × α) → Nat → α → List (Nat × α)
  | [], _, _ => []
  | (k', v') :: t, k, v => if k' = k then (k', v) :: t else (k', v') :: updateN t k v

/-- A bound native-backed instance: its class name and the native state it
exclusively owns (spec §3 lifecycle: each host instance owns exactly one
native value). -/
structure Obj where
  cls : String
  state : List (String × NValue)

/-- The host-side store of bound instances.  References are allocated
sequentially; `next` is the next fresh reference. -/
structure Store where
  objs : List (Nat × Obj)
  next : Nat

/-- The empty store. -/
def Store.empty : Store := ⟨[], 0⟩

/-- Look up a bound instance. -/
def Store.find (st : Store) (r : Nat) : Option Obj := lookupN st.objs r

/-- Replace the object at an existing reference. -/
def Store.put (st : Store) (r : Nat) (o : Obj) : Store :=
  ⟨updateN st.objs r o, st.next⟩

/-- Allocate a fresh bound instance, returning the new store and reference. -/
def Store.alloc (st : Store) (o : Obj) : Store × Nat :=
  (⟨(st.next, o) :: st.objs, st.next + 1⟩, st.next)

/-- Store well-formedness: every allocated reference is below `next`. -/
def Store.WFb (st : Store) : Bool :=
  st.objs.all (fun p => p.1 < st.next)

/-- Modelled from the spec: `MarshalError` — a value that does not fit the
expected TypeRef at call time (§7).  It surfaces on the host error channel as
a host `TypeError`. -/
def marshalError (m : String) : HostError := ⟨"TypeError", m⟩

mutual

/-- Modelled from the spec: native→host marshaling for the categories that
need no store allocation (§4.3 Type Mapper table).  Sequences become
independent host lists; a null handle becomes the "no value" marker; a
non-null handle payload and inline class values become associative maps (the
map-based representation asserted by
`tests/e2e/advanced/smart_ptrs/test_resource.py`). -/
def nativeToHostFlat : NValue → HostValue
  | .nInt i => .vint i
  | .nFloat x => .vfloat x
  | .nBool b => .vbool b
  | .nStr s => .vstr s
  | .nSeq xs => .vlist (nListToHost xs)
  | .nObj fs => .vdict (nFieldsToHost fs)
  | .nHandle _ none => .vnone
  | .nHandle _ (some fs) => .vdict (nFieldsToHost fs)
  | .nFun _ => .vnone

/-- Elementwise native→host marshaling of a native sequence. -/
def nListToHost : List NValue → List HostValue
  | [] => []
  | x :: t => nativeToHostFlat x :: nListToHost t

/-- Fieldwise native→host marshaling of a native field map. -/
def nFieldsToHost : List (String × NValue) → List (String × HostValue)
  | [] => []
  | (k, v) :: t => (k, nativeToHostFlat v) :: nFieldsToHost t

end

/-- Modelled from the spec: SmartHandle native→host marshaling — null becomes
the uniform "no value" marker, a non-null pointee becomes an associative map
of its state (§4.3, pinned to the dict representation by
`tests/e2e/advanced/smart_ptrs/test_resource.py` lines 30-32). -/
def handleToHost : Option (List (String × NValue)) → HostValue
  | none => .vnone
  | some fs => .vdict (nFieldsToHost fs)

/-- Fieldwise host→native conversion of an associative-map payload for a
smart handle (`rm.unique_data = dict` in the smart-pointer test). -/
def entriesToNative : List (String × HostValue) → Except HostError (List (String × NValue))
  | [] => .ok []
  | (k, v) :: t => do
      let nv ← match v with
        | .vint i => Except.ok (NValue.nInt i)
        | .vfloat x => Except.ok (NValue.nFloat x)
        | .vbool b => Except.ok (NValue.nBool b)
        | .vstr s => Except.ok (NValue.nStr s)
        | _ => Except.error (marshalError "unsupported payload entry")
      let rest ← entriesToNative t
      .ok ((k, nv) :: rest)

mutual

/-- Modelled from the spec: host→native marshaling, table-driven by TypeRef
(§4.3).  A host value of the wrong kind is a `MarshalError`; the "no value"
marker maps to a null handle or cleared functor; a bound instance assigned to
a ClassValue slot is copied into native storage. -/
def hostToNative (st : Store) (t : TypeRef) (v : HostValue) : Except HostError NValue :=
  match t, v with
  | .Primitive .pInt, .vint i => .ok (.nInt i)
  | .Primitive .pDouble, .vfloat x => .ok (.nFloat x)
  | .Primitive .pBool, .vbool b => .ok (.nBool b)
  | .Text, .vstr s => .ok (.nStr s)
  | .Sequence et _, .vlist xs => (hostListToNative st et xs).map NValue.nSeq
  | .SmartHandle own _, .vnone => .ok (.nHandle own none)
  | .SmartHandle own _, .vdict es => (entriesToNative es).map (fun fs => .nHandle own (some fs))
  | .ClassValue c, .vref r =>
      match st.find r with
      | some o =>
          if o.cls = c then .ok (.nObj o.state)
          else .error (marshalError "class value of the wrong class")
      | none => .error (marshalError "dangling instance reference")
  | .Function _ _, .vnone => .ok (.nFun none)
  | .Function _ _, .vfunc cb => .ok (.nFun (some cb))
  | _, _ => .error (marshalError "value does not fit the expected TypeRef")

/-- Elementwise host→native marshaling of a host sequence: the native
contents are replaced wholesale, whatever the lengths involved (§4.3). -/
def hostListToNative (st : Store) (t : TypeRef) (xs : List HostValue) :
    Except HostError (List NValue) :=
  match xs with
  | [] => .ok []
  | x :: rest => do
      let v ← hostToNative st t x
      let vs ← hostListToNative st t rest
      .ok (v :: vs)

end

/-- Modelled from the spec: invoking the native functor adapter (§4.3
Function row).  An unset functor has no observable effect; an accumulating
callback records its argument as a host-observable event; a raising callback
aborts the native frame with a `CallbackError` fault. -/
def invokeCallback : Option Callback → Int → Except Fault (List Int)
  | none, _ => .ok []
  | some .accum, v => .ok [v]
  | some (.raises k m), _ => .error (.callback k m)

/-- Modelled from the spec and the end-to-end tests: boundary fault
translation (§4.5).  Both native exceptions and callback-raised host errors
re-surface as a host `RuntimeError` carrying the original message — the
callback test raises a `ValueError` and catches the propagated error with
`except RuntimeError` (`tests/e2e/callbacks/test_callbacks.py` lines
112-122), so the original kind is not restored. -/
def translateFault : Fault → HostError
  | .native msg => ⟨"RuntimeError", msg⟩
  | .callback _ msg => ⟨"RuntimeError", msg⟩

/-- Modelled from the spec: FieldDecl — name, TypeRef (§3). -/
structure FieldDecl where
  name : String
  ty : TypeRef

/-- Modelled from the spec: ParamDecl — TypeRef at an ordinal position (§3). -/
structure ParamDecl where
  ty : TypeRef

/-- Modelled from the spec: MethodDecl (§3), extended with the native body the
engine dispatches into.  A body maps the object's native state and the
converted arguments to a new state, an optional native return value and the
host-observable callback events, or aborts with a fault. -/
structure MethodDecl where
  baseName : String
  params : List ParamDecl
  ret : Option TypeRef
  body : List (String × NValue) → List NValue →
    Except Fault (List (String × NValue) × Option NValue × List Int)

/-- Modelled from the spec: a constructor declaration — parameter types and
the native initialisation it performs (§4.2). -/
structure CtorDecl where
  params : List ParamDecl
  body : List NValue → List (String × NValue)

/-- Modelled from the spec: ClassDecl — name, fields, constructors, methods
(§3). -/
structure ClassDecl where
  name : String
  fields : List FieldDecl
  ctors : List CtorDecl
  methods : List MethodDecl

/-- Modelled from the spec: the short stable tag per TypeRef category used by
the name mangler (§4.2; tags `int`, `double`, `string` observed in
`tests/e2e/advanced/overloading/test_printer.py`). -/
def typeTag : TypeRef → String
  | .Primitive .pInt => "int"
  | .Primitive .pDouble => "double"
  | .Primitive .pBool => "bool"
  | .Text => "string"
  | .Sequence _ _ => "vector"
  | .SmartHandle _ _ => "ptr"
  | .ClassValue c => c
  | .Function _ _ => "function"

/-- Modelled from the spec: the mangled symbol — the base name with one tag
appended per parameter, in parameter order (§4.2). -/
def mangledName (m : MethodDecl) : String :=
  m.params.foldl (fun acc p => acc ++ "_" ++ typeTag p.ty) m.baseName

/-- Number of method declarations in a class sharing a base name. -/
def countBase (ms : List MethodDecl) (n : String) : Nat :=
  (ms.filter fun m => m.baseName == n).length

/-- Modelled from the spec: the Overload Resolver — a member whose base name
is unique keeps it; a member of an overload group gets the mangled symbol
(§4.2). -/
def boundSymbol (ms : List MethodDecl) (m : MethodDecl) : String :=
  if countBase ms m.baseName ≤ 1 then m.baseName else mangledName m

/-- The bound symbols of a class's method list, in declaration order. -/
def boundSymbols (ms : List MethodDecl) : List String :=
  ms.map (boundSymbol ms)

/-- Look up a class declaration by its fully-qualified name. -/
def lookupClass (ct : List ClassDecl) (n : String) : Option ClassDecl :=
  ct.find? (fun c => c.name == n)

/-- Look up a field declaration by name. -/
def lookupField (cd : ClassDecl) (f : String) : Option FieldDecl :=
  cd.fields.find? (fun fd => fd.name == f)

/-- Modelled from the spec: field read, routed through the Type Mapper per
the field's TypeRef (§4.4).  A ClassValue field comes back as a *fresh* bound
instance holding a copy of the nested state (§3 copy invariant,
`tests/e2e/nesting/person/test_person.py`); a SmartHandle field follows the
null/map convention; everything else is marshaled by value. -/
def getField (ct : List ClassDecl) (st : Store) (r : Nat) (f : String) :
    Except HostError (Store × HostValue) :=
  match st.find r with
  | none => .error (marshalError "dangling instance reference")
  | some o =>
    match lookupClass ct o.cls with
    | none => .error (marshalError "unknown class")
    | some cd =>
      match lookupField cd f, lookupS o.state f with
      | some fd, some v =>
        match fd.ty, v with
        | .ClassValue c, .nObj fs =>
            let (st', r') := st.alloc ⟨c, fs⟩
            .ok (st', .vref r')
        | .SmartHandle _ _, .nHandle _ p => .ok (st, handleToHost p)
        | _, _ => .ok (st, nativeToHostFlat v)
      | _, _ => .error (marshalError "no such field")

/-- Modelled from the spec: field write, routed through the Type Mapper per
the field's TypeRef (§4.4).  The host value replaces the native contents of
that one field of that one instance. -/
def setField (ct : List ClassDecl) (st : Store) (r : Nat) (f : String) (v : HostValue) :
    Except HostError Store :=
  match st.find r with
  | none => .error (marshalError "dangling instance reference")
  | some o =>
    match lookupClass ct o.cls with
    | none => .error (marshalError "unknown class")
    | some cd =>
      match lookupField cd f with
      | none => .error (marshalError "no such field")
      | some fd => (hostToNative st fd.ty v).map fun nv =>
          st.put r ⟨o.cls, updateS o.state f nv⟩

/-- Modelled from the spec: the known host-value kind of an argument matched
against a ParamDecl type during constructor dispatch (§4.2). -/
def hostKindMatches : TypeRef → HostValue → Bool
  | .Primitive .pInt, .vint _ => true
  | .Primitive .pDouble, .vfloat _ => true
  | .Primitive .pBool, .vbool _ => true
  | .Text, .vstr _ => true
  | .Sequence _ _, .vlist _ => true
  | .SmartHandle _ _, .vnone => true
  | .SmartHandle _ _, .vdict _ => true
  | .ClassValue _, .vref _ => true
  | .Function _ _, .vnone => true
  | .Function _ _, .vfunc _ => true
  | _, _ => false

/-- Modelled from the spec: arity plus elementwise type compatibility (§4.2
constructor dispatch). -/
def matchParams (ps : List ParamDecl) (args : List HostValue) : Bool :=
  ps.length == args.length &&
    (List.zip ps args).all fun pa => hostKindMatches pa.1.ty pa.2

/-- Convert the positional arguments of a call per the declared parameter
types; a leftover on either side is a wrong-arity `MarshalError` (§7). -/
def argsToNative (st : Store) : List ParamDecl → List HostValue →
    Except HostError (List NValue)
  | [], [] => .ok []
  | p :: ps, a :: rest => do
      let v ← hostToNative st p.ty a
      let vs ← argsToNative st ps rest
      .ok (v :: vs)
  | _, _ => .error (marshalError "wrong arity")

/-- Modelled from the spec: constructor dispatch — the first declaration in
source order whose parameters match the supplied argument kinds wins; no
match is a `MarshalError` (§4.2).  The new instance owns a fresh native
value. -/
def construct (ct : List ClassDecl) (st : Store) (cls : String) (args : List HostValue) :
    Except HostError (Store × Nat) :=
  match lookupClass ct cls with
  | none => .error (marshalError "unknown class")
  | some cd =>
    match cd.ctors.find? (fun c => matchParams c.params args) with
    | none => .error (marshalError "no constructor matches the argument kinds")
    | some c => (argsToNative st c.params args).map fun nargs =>
        st.alloc ⟨cls, c.body nargs⟩

/-- Modelled from the spec: marshal a native return value out per the
declared return TypeRef — ClassValue returns allocate a fresh bound copy,
SmartHandle returns follow the null/map convention, a void return is the
"no value" marker (§4.3). -/
def marshalRet (st : Store) : Option TypeRef → Option NValue → Store × HostValue
  | some (.ClassValue c), some (.nObj fs) =>
      let (st', r) := st.alloc ⟨c, fs⟩
      (st', .vref r)
  | some (.SmartHandle _ _), some (.nHandle _ p) => (st, handleToHost p)
  | _, some v => (st, nativeToHostFlat v)
  | _, none => (st, .vnone)

/-- Modelled from the spec: one full pass of the marshaling runtime's call
state machine (§4.5) — arguments in, native body, result out.  A fault during
native execution is translated to a single host error and is fatal to this
call only: the store is left exactly as it was.  The result carries the
updated store, the marshaled return value, and the host-observable callback
events of the call. -/
def callMethod (ct : List ClassDecl) (st : Store) (r : Nat) (sym : String)
    (args : List HostValue) : Except HostError (Store × HostValue × List Int) :=
  match st.find r with
  | none => .error (marshalError "dangling instance reference")
  | some o =>
    match lookupClass ct o.cls with
    | none => .error (marshalError "unknown class")
    | some cd =>
      match cd.methods.find? (fun m => boundSymbol cd.methods m == sym) with
      | none => .error (marshalError "no such bound symbol")
      | some m => do
        let nargs ← argsToNative st m.params args
        match m.body o.state nargs with
        | .error f => .error (translateFault f)
        | .ok (state', ret, log) =>
            let st1 := st.put r ⟨o.cls, state'⟩
            let (st2, hv) := marshalRet st1 m.ret ret
            .ok (st2, hv, log)

/-- Read a floating field out of a native state, defaulting to 0. -/
def getF (s : List (String × NValue)) (k : String) : Int :=
  match lookupS s k with
  | some (.nFloat x) => x
  | _ => 0

/-- Read an integer field out of a native state, defaulting to 0. -/
def getI (s : List (String × NValue)) (k : String) : Int :=
  match lookupS s k with
  | some (.nInt i) => i
  | _ => 0

/-- Read a text field out of a native state, defaulting to the empty string. -/
def getS (s : List (String × NValue)) (k : String) : String :=
  match lookupS s k with
  | some (.nStr v) => v
  | _ => ""

/-- Read a smart-handle field out of a native state. -/
def getH (s : List (String × NValue)) (k : String) :
    Option (List (String × NValue)) :=
  match lookupS s k with
  | some (.nHandle _ p) => p
  | _ => none

/-- Read a functor slot out of a native state. -/
def getCb (s : List (String × NValue)) (k : String) : Option Callback :=
  match lookupS s k with
  | some (.nFun cb) => cb
  | _ => none

/-- Modelled from the spec: the `Rectangle` class of the constructor-dispatch
scenario (§8; `tests/e2e/advanced/constructors/test_rectangle.py`).  Three
constructors: `()` → 0, 0, "unnamed"; `(double, double)` → w, h, "rectangle";
`(double, double, string)` → w, h, given name. -/
def rectangleDecl : ClassDecl where
  name := "Rectangle"
  fields := [⟨"width", .Primitive .pDouble⟩, ⟨"height", .Primitive .pDouble⟩,
             ⟨"name", .Text⟩]
  ctors :=
    [ ⟨[], fun _ =>
        [("width", .nFloat 0), ("height", .nFloat 0), ("name", .nStr "unnamed")]⟩,
      ⟨[⟨.Primitive .pDouble⟩, ⟨.Primitive .pDouble⟩], fun args =>
        match args with
        | [.nFloat w, .nFloat h] =>
            [("width", .nFloat w), ("height", .nFloat h), ("name", .nStr "rectangle")]
        | _ => []⟩,
      ⟨[⟨.Primitive .pDouble⟩, ⟨.Primitive .pDouble⟩, ⟨.Text⟩], fun args =>
        match args with
        | [.nFloat w, .nFloat h, .nStr n] =>
            [("width", .nFloat w), ("height", .nFloat h), ("name", .nStr n)]
        | _ => []⟩ ]
  methods :=
    [ ⟨"area", [], some (.Primitive .pDouble), fun s _ =>
        .ok (s, some (.nFloat (getF s "width" * getF s "height")), [])⟩,
      ⟨"perimeter", [], some (.Primitive .pDouble), fun s _ =>
        .ok (s, some (.nFloat (2 * (getF s "width" + getF s "height"))), [])⟩ ]

/-- Native body of `Calculator.divide`: throws a native exception on a zero
divisor, otherwise divides the accumulator
(`tests/e2e/methods/calculator/test_calculator.py` Test 10). -/
def calcDivideBody (s : List (String × NValue)) (args : List NValue) :
    Except Fault (List (String × NValue) × Option NValue × List Int) :=
  match args with
  | [.nFloat x] =>
      if x = 0 then .error (.native "Division by zero")
      else
        let v := getF s "value" / x
        .ok (updateS s "value" (.nFloat v), some (.nFloat v), [])
  | _ => .error (.native "bad arguments")

/-- Declaration of `Calculator.divide`. -/
def calcDivideDecl : MethodDecl :=
  ⟨"divide", [⟨.Primitive .pDouble⟩], some (.Primitive .pDouble), calcDivideBody⟩

/-- Modelled from the spec: the `Calculator` class whose `divide` raises a
native exception on a zero argument (§8 division-fault property;
`tests/e2e/methods/calculator/test_calculator.py`). -/
def calculatorDecl : ClassDecl where
  name := "Calculator"
  fields := [⟨"value", .Primitive .pDouble⟩]
  ctors := [⟨[], fun _ => [("value", .nFloat 0)]⟩]
  methods :=
    [ ⟨"add", [⟨.Primitive .pDouble⟩], some (.Primitive .pDouble), fun s args =>
        match args with
        | [.nFloat x] =>
            let v := getF s "value" + x
            .ok (updateS s "value" (.nFloat v), some (.nFloat v), [])
        | _ => .error (.native "bad arguments")⟩,
      ⟨"subtract", [⟨.Primitive .pDouble⟩], some (.Primitive .pDouble), fun s args =>
        match args with
        | [.nFloat x] =>
            let v := getF s "value" - x
            .ok (updateS s "value" (.nFloat v), some (.nFloat v), [])
        | _ => .error (.native "bad arguments")⟩,
      ⟨"multiply", [⟨.Primitive .pDouble⟩], some (.Primitive .pDouble), fun s args =>
        match args with
        | [.nFloat x] =>
            let v := getF s "value" * x
            .ok (updateS s "value" (.nFloat v), some (.nFloat v), [])
        | _ => .error (.native "bad arguments")⟩,
      calcDivideDecl,
      ⟨"reset", [], none, fun s _ =>
        .ok (updateS s "value" (.nFloat 0), none, [])⟩,
      ⟨"get_value", [], some (.Primitive .pDouble), fun s _ =>
        .ok (s, some (.nFloat (getF s "value")), [])⟩ ]

/-- Overloaded `print(int)` declaration of the Printer class. -/
def printIntDecl : MethodDecl :=
  ⟨"print", [⟨.Primitive .pInt⟩], none, fun s args =>
    match args with
    | [.nInt i] => .ok (updateS s "last_output" (.nStr ("int: " ++ toString i)), none, [])
    | _ => .error (.native "bad arguments")⟩

/-- Overloaded `print(double)` declaration of the Printer class. -/
def printDoubleDecl : MethodDecl :=
  ⟨"print", [⟨.Primitive .pDouble⟩], none, fun s args =>
    match args with
    | [.nFloat x] => .ok (updateS s "last_output" (.nStr ("double: " ++ toString x)), none, [])
    | _ => .error (.native "bad arguments")⟩

/-- Overloaded `print(string)` declaration of the Printer class. -/
def printStringDecl : MethodDecl :=
  ⟨"print", [⟨.Text⟩], none, fun s args =>
    match args with
    | [.nStr v] => .ok (updateS s "last_output" (.nStr ("string: " ++ v)), none, [])
    | _ => .error (.native "bad arguments")⟩

/-- Overloaded `format(int, int)` declaration of the Printer class. -/
def formatIntIntDecl : MethodDecl :=
  ⟨"format", [⟨.Primitive .pInt⟩, ⟨.Primitive .pInt⟩], some .Text, fun s args =>
    match args with
    | [.nInt a, .nInt b] => .ok (s, some (.nStr (toString a ++ "," ++ toString b)), [])
    | _ => .error (.native "bad arguments")⟩

/-- Overloaded `format(double, double)` declaration of the Printer class. -/
def formatDoubleDoubleDecl : MethodDecl :=
  ⟨"format", [⟨.Primitive .pDouble⟩, ⟨.Primitive .pDouble⟩], some .Text, fun s args =>
    match args with
    | [.nFloat a, .nFloat b] => .ok (s, some (.nStr (toString a ++ "," ++ toString b)), [])
    | _ => .error (.native "bad arguments")⟩

/-- Overloaded `format(string, string)` declaration of the Printer class. -/
def formatStringStringDecl : MethodDecl :=
  ⟨"format", [⟨.Text⟩, ⟨.Text⟩], some .Text, fun s args =>
    match args with
    | [.nStr a, .nStr b] => .ok (s, some (.nStr (a ++ " + " ++ b)), [])
    | _ => .error (.native "bad arguments")⟩

/-- Non-overloaded `get_last` declaration of the Printer class. -/
def getLastDecl : MethodDecl :=
  ⟨"get_last", [], some .Text, fun s _ =>
    .ok (s, some (.nStr (getS s "last_output")), [])⟩

/-- Modelled from the spec: the `Printer` overload-group scenario (§8;
`tests/e2e/advanced/overloading/test_printer.py`) — `print` and `format` are
overload groups of three declarations each, `get_last` is unique. -/
def printerDecl : ClassDecl where
  name := "Printer"
  fields := [⟨"last_output", .Text⟩]
  ctors := [⟨[], fun _ => [("last_output", .nStr "")]⟩]
  methods :=
    [printIntDecl, printDoubleDecl, printStringDecl,
     formatIntIntDecl, formatDoubleDoubleDecl, formatStringStringDecl,
     getLastDecl]

/-- The `void(int)` Function TypeRef of the emitter's data callback slot. -/
def dataCbTy : TypeRef := .Function none [.Primitive .pInt]

/-- Declaration of `EventEmitter.on_data`: stores the marshaled host
callable into the native functor slot (the "no value" marker clears it). -/
def emitOnDataDecl : MethodDecl :=
  ⟨"on_data", [⟨dataCbTy⟩], none, fun s args =>
    match args with
    | [.nFun cb] => .ok (updateS s "data_cb" (.nFun cb), none, [])
    | _ => .error (.native "bad arguments")⟩

/-- Declaration of `EventEmitter.has_data_callback`: feature detection for
the data slot. -/
def emitHasDataDecl : MethodDecl :=
  ⟨"has_data_callback", [], some (.Primitive .pBool), fun s _ =>
    .ok (s, some (.nBool (getCb s "data_cb").isSome), [])⟩

/-- Declaration of `EventEmitter.emit_data`: invokes the stored functor from
inside the native frame. -/
def emitEmitDataDecl : MethodDecl :=
  ⟨"emit_data", [⟨.Primitive .pInt⟩], none, fun s args =>
    match args with
    | [.nInt v] => (invokeCallback (getCb s "data_cb") v).map fun log => (s, none, log)
    | _ => .error (.native "bad arguments")⟩

/-- Modelled from the spec: the `EventEmitter` callback scenario (§8;
`tests/e2e/callbacks/test_callbacks.py`) — data, message and compute functor
slots, each settable, clearable, feature-detectable and invocable. -/
def emitterDecl : ClassDecl where
  name := "EventEmitter"
  fields := [⟨"data_cb", dataCbTy⟩, ⟨"message_cb", dataCbTy⟩, ⟨"compute_cb", dataCbTy⟩]
  ctors := [⟨[], fun _ =>
    [("data_cb", .nFun none), ("message_cb", .nFun none), ("compute_cb", .nFun none)]⟩]
  methods :=
    [ emitOnDataDecl,
      emitHasDataDecl,
      emitEmitDataDecl,
      ⟨"on_message", [⟨dataCbTy⟩], none, fun s args =>
        match args with
        | [.nFun cb] => .ok (updateS s "message_cb" (.nFun cb), none, [])
        | _ => .error (.native "bad arguments")⟩,
      ⟨"has_message_callback", [], some (.Primitive .pBool), fun s _ =>
        .ok (s, some (.nBool (getCb s "message_cb").isSome), [])⟩,
      ⟨"on_compute", [⟨dataCbTy⟩], none, fun s args =>
        match args with
        | [.nFun cb] => .ok (updateS s "compute_cb" (.nFun cb), none, [])
        | _ => .error (.native "bad arguments")⟩,
      ⟨"has_compute_callback", [], some (.Primitive .pBool), fun s _ =>
        .ok (s, some (.nBool (getCb s "compute_cb").isSome), [])⟩,
      ⟨"clear_callbacks", [], none, fun s _ =>
        .ok (updateS (updateS (updateS s "data_cb" (.nFun none))
              "message_cb" (.nFun none)) "compute_cb" (.nFun none), none, [])⟩ ]

/-- Modelled from the spec: the `Data` pointee class of the smart-pointer
scenario (`tests/e2e/advanced/smart_ptrs/test_resource.py`). -/
def dataDecl : ClassDecl where
  name := "Data"
  fields := [⟨"name", .Text⟩, ⟨"value", .Primitive .pInt⟩]
  ctors := [⟨[], fun _ => [("name", .nStr ""), ("value", .nInt 0)]⟩]
  methods := []

/-- Declaration of the factory `ResourceManager.create_unique`: returns an
exclusive handle owning a fresh pointee built from the arguments. -/
def rmCreateUniqueDecl : MethodDecl :=
  ⟨"create_unique", [⟨.Text⟩, ⟨.Primitive .pInt⟩],
    some (.SmartHandle .exclusive "Data"), fun s args =>
    match args with
    | [.nStr n, .nInt v] =>
        .ok (s, some (.nHandle .exclusive (some [("name", .nStr n), ("value", .nInt v)])), [])
    | _ => .error (.native "bad arguments")⟩

/-- Declaration of the factory `ResourceManager.create_shared`. -/
def rmCreateSharedDecl : MethodDecl :=
  ⟨"create_shared", [⟨.Text⟩, ⟨.Primitive .pInt⟩],
    some (.SmartHandle .shared "Data"), fun s args =>
    match args with
    | [.nStr n, .nInt v] =>
        .ok (s, some (.nHandle .shared (some [("name", .nStr n), ("value", .nInt v)])), [])
    | _ => .error (.native "bad arguments")⟩

/-- Modelled from the spec: the `ResourceManager` smart-pointer scenario (§8;
`tests/e2e/advanced/smart_ptrs/test_resource.py`).  Both handle fields start
null; the factories return ownership-transferring handles whose pointee
fields equal the factory arguments; the name getters answer "null" on a null
handle. -/
def resourceManagerDecl : ClassDecl where
  name := "ResourceManager"
  fields := [⟨"unique_data", .SmartHandle .exclusive "Data"⟩,
             ⟨"shared_data", .SmartHandle .shared "Data"⟩]
  ctors := [⟨[], fun _ =>
    [("unique_data", .nHandle .exclusive none), ("shared_data", .nHandle .shared none)]⟩]
  methods :=
    [ rmCreateUniqueDecl,
      rmCreateSharedDecl,
      ⟨"get_unique_name", [], some .Text, fun s _ =>
        .ok (s, some (.nStr (match getH s "unique_data" with
          | none => "null"
          | some fs => getS fs "name")), [])⟩,
      ⟨"get_unique_value", [], some (.Primitive .pInt), fun s _ =>
        .ok (s, some (.nInt (match getH s "unique_data" with
          | none => 0
          | some fs => getI fs "value")), [])⟩,
      ⟨"get_shared_name", [], some .Text, fun s _ =>
        .ok (s, some (.nStr (match getH s "shared_data" with
          | none => "null"
          | some fs => getS fs "name")), [])⟩,
      ⟨"get_shared_value", [], some (.Primitive .pInt), fun s _ =>
        .ok (s, some (.nInt (match getH s "shared_data" with
          | none => 0
          | some fs => getI fs "value")), [])⟩,
      ⟨"set_unique", [⟨.SmartHandle .exclusive "Data"⟩], none, fun s args =>
        match args with
        | [.nHandle _ p] => .ok (updateS s "unique_data" (.nHandle .exclusive p), none, [])
        | _ => .error (.native "bad arguments")⟩,
      ⟨"set_shared", [⟨.SmartHandle .shared "Data"⟩], none, fun s args =>
        match args with
        | [.nHandle _ p] => .ok (updateS s "shared_data" (.nHandle .shared p), none, [])
        | _ => .error (.native "bad arguments")⟩ ]

/-- Modelled from the spec: the nested `Address` class
(`tests/e2e/nesting/person/test_person.py`). -/
def addressDecl : ClassDecl where
  name := "Address"
  fields := [⟨"street", .Text⟩, ⟨"city", .Text⟩, ⟨"zip_code", .Primitive .pInt⟩]
  ctors := [⟨[], fun _ =>
    [("street", .nStr ""), ("city", .nStr ""), ("zip_code", .nInt 0)]⟩]
  methods := []

/-- Default native state of an `Address` value. -/
def addressDefault : List (String × NValue) :=
  [("street", .nStr ""), ("city", .nStr ""), ("zip_code", .nInt 0)]

/-- Modelled from the spec: the `Person` class holding an `Address` by value
(`tests/e2e/nesting/person/test_person.py`). -/
def personDecl : ClassDecl where
  name := "Person"
  fields := [⟨"name", .Text⟩, ⟨"age", .Primitive .pInt⟩,
             ⟨"address", .ClassValue "Address"⟩]
  ctors := [⟨[], fun _ =>
    [("name", .nStr ""), ("age", .nInt 0), ("address", .nObj addressDefault)]⟩]
  methods := []

/-- Modelled from the spec: the `Particle` container scenario
(`tests/e2e/test_particle.py`) — two variable-length sequence fields and one
fixed-length-3 sequence field. -/
def particleDecl : ClassDecl where
  name := "Particle"
  fields := [⟨"mass", .Primitive .pDouble⟩,
             ⟨"position", .Sequence (.Primitive .pDouble) none⟩,
             ⟨"velocity", .Sequence (.Primitive .pDouble) none⟩,
             ⟨"acceleration", .Sequence (.Primitive .pDouble) (some 3)⟩]
  ctors := [⟨[], fun _ =>
    [("mass", .nFloat 1),
     ("position", .nSeq [.nFloat 0, .nFloat 0, .nFloat 0]),
     ("velocity", .nSeq [.nFloat 0, .nFloat 0, .nFloat 0]),
     ("acceleration", .nSeq [.nFloat 0, .nFloat 0, .nFloat 0])]⟩]
  methods := []

/-- Modelled from the spec: the `Document` string-field scenario
(`tests/e2e/test_document.py`). -/
def documentDecl : ClassDecl where
  name := "Document"
  fields := [⟨"title", .Text⟩, ⟨"content", .Text⟩, ⟨"preview", .Text⟩,
             ⟨"word_count", .Primitive .pInt⟩]
  ctors := [⟨[], fun _ =>
    [("title", .nStr ""), ("content", .nStr ""), ("preview", .nStr ""),
     ("word_count", .nInt 0)]⟩]
  methods := []

/-- The registered class table of the bound surface under study. -/
def classTable : List ClassDecl :=
  [rectangleDecl, calculatorDecl, printerDecl, emitterDecl,
   resourceManagerDecl, dataDecl, addressDecl, personDecl,
   particleDecl, documentDecl]

/-- Sequence element categories whose marshaling needs no store interaction:
primitives, text, and sequences thereof. -/
def flatType : TypeRef → Bool
  | .Primitive _ => true
  | .Text => true
  | .Sequence t _ => flatType t
  | _ => false

theorem lookupN_updateN_ne {α : Type} (l : List (Nat × α)) (r k : Nat) (v : α)
    (h : k ≠ r) : lookupN (updateN l r v) k = lookupN l k := by
  induction l with
  | nil => rfl
  | cons p t ih =>
      obtain ⟨k', v'⟩ := p
      by_cases hk : k' = r
      · subst hk
        simp only [updateN, if_pos rfl, lookupN]
        rw [if_neg (fun hkk => h hkk.symm), if_neg (fun hkk => h hkk.symm)]
      · simp only [updateN, if_neg hk, lookupN]
        by_cases hk2 : k' = k
        · rw [if_pos hk2, if_pos hk2]
        · rw [if_neg hk2, if_neg hk2]
          exact ih

theorem lookupN_updateN_self {α : Type} (l : List (Nat × α)) (r : Nat) (v w : α)
    (h : lookupN l r = some w) : lookupN (updateN l r v) r = some v := by
  induction l with
  | nil => simp [lookupN] at h
  | cons p t ih =>
      obtain ⟨k', v'⟩ := p
      by_cases hk : k' = r
      · subst hk
        simp [updateN, lookupN]
      · simp only [lookupN, if_neg hk] at h
        simp only [updateN, if_neg hk, lookupN, if_neg hk]
        exact ih h

theorem updateN_lookup_self {α : Type} (l : List (Nat × α)) (r : Nat) (w : α)
    (h : lookupN l r = some w) : updateN l r w = l := by
  induction l with
  | nil => rfl
  | cons p t ih =>
      obtain ⟨k', v'⟩ := p
      by_cases hk : k' = r
      · subst hk
        have h' : v' = w := by simpa [lookupN] using h
        subst h'
        simp [updateN]
      · simp only [lookupN, if_neg hk] at h
        simp only [updateN, if_neg hk]
        rw [ih h]

theorem lookupS_updateS_ne {α : Type} (l : List (String × α)) (k0 k : String) (v : α)
    (h : k ≠ k0) : lookupS (updateS l k0 v) k = lookupS l k := by
  induction l with
  | nil => rfl
  | cons p t ih =>
      obtain ⟨k', v'⟩ := p
      by_cases hk : k' = k0
      · subst hk
        simp only [updateS, if_pos rfl, lookupS]
        rw [if_neg (fun hkk => h hkk.symm), if_neg (fun hkk => h hkk.symm)]
      · simp only [updateS, if_neg hk, lookupS]
        by_cases hk2 : k' = k
        · rw [if_pos hk2, if_pos hk2]
        · rw [if_neg hk2, if_neg hk2]
          exact ih

theorem lookupS_updateS_self {α : Type} (l : List (String × α)) (k : String) (v w : α)
    (h : lookupS l k = some w) : lookupS (updateS l k v) k = some v := by
  induction l with
  | nil => simp [lookupS] at h
  | cons p t ih =>
      obtain ⟨k', v'⟩ := p
      by_cases hk : k' = k
      · subst hk
        simp [updateS, lookupS]
      · simp only [lookupS, if_neg hk] at h
        simp only [updateS, if_neg hk, lookupS, if_neg hk]
        exact ih h

theorem Store.find_put_ne (st : Store) (r r' : Nat) (o : Obj) (h : r' ≠ r) :
    (st.put r o).find r' = st.find r' :=
  lookupN_updateN_ne st.objs r r' o h

theorem Store.find_put_self (st : Store) (r : Nat) (o w : Obj)
    (h : st.find r = some w) : (st.put r o).find r = some o :=
  lookupN_updateN_self st.objs r o w h

theorem Store.put_self (st : Store) (r : Nat) (o : Obj)
    (h : st.find r = some o) : st.put r o = st := by
  unfold Store.put
  rw [updateN_lookup_self st.objs r o h]

theorem Store.find_alloc_ne (st : Store) (o : Obj) (r : Nat) (h : r ≠ st.next) :
    (st.alloc o).1.find r = st.find r := by
  simp only [Store.alloc, Store.find, lookupN]
  rw [if_neg (fun he => h he.symm)]

theorem Store.find_alloc_self (st : Store) (o : Obj) :
    (st.alloc o).1.find st.next = some o := by
  simp [Store.alloc, Store.find, lookupN]

theorem setField_ok_inv (ct : List ClassDecl) (st : Store) (r : Nat) (f : String)
    (v : HostValue) (st' : Store) (h : setField ct st r f v = .ok st') :
    ∃ o cd fd nv, st.find r = some o ∧ lookupClass ct o.cls = some cd ∧
      lookupField cd f = some fd ∧ hostToNative st fd.ty v = .ok nv ∧
      st' = st.put r ⟨o.cls, updateS o.state f nv⟩ := by
  unfold setField at h
  cases ho : st.find r with
  | none => simp only [ho] at h; exact Except.noConfusion h
  | some o =>
  simp only [ho] at h
  cases hcd : lookupClass ct o.cls with
  | none => simp only [hcd] at h; exact Except.noConfusion h
  | some cd =>
  simp only [hcd] at h
  cases hfd : lookupField cd f with
  | none => simp only [hfd] at h; exact Except.noConfusion h
  | some fd =>
  simp only [hfd] at h
  cases hcv : hostToNative st fd.ty v with
  | error e => simp only [hcv, Except.map] at h; exact Except.noConfusion h
  | ok nv =>
  simp only [hcv, Except.map, Except.ok.injEq] at h
  exact ⟨o, cd, fd, nv, rfl, hcd, hfd, hcv, h.symm⟩

theorem setField_frame (ct : List ClassDecl) (st : Store) (r : Nat) (f : String)
    (v : HostValue) (st' : Store) (h : setField ct st r f v = .ok st')
    (r2 : Nat) (hne : r2 ≠ r) : st'.find r2 = st.find r2 := by
  obtain ⟨o, cd, fd, nv, ho, hcd, hfd, hcv, hst⟩ := setField_ok_inv ct st r f v st' h
  subst hst
  exact Store.find_put_ne st r r2 _ hne

theorem setField_next (ct : List ClassDecl) (st : Store) (r : Nat) (f : String)
    (v : HostValue) (st' : Store) (h : setField ct st r f v = .ok st') :
    st'.next = st.next := by
  obtain ⟨o, cd, fd, nv, ho, hcd, hfd, hcv, hst⟩ := setField_ok_inv ct st r f v st' h
  subst hst
  rfl

theorem construct_ok_inv (ct : List ClassDecl) (st : Store) (cls : String)
    (args : List HostValue) (st' : Store) (r : Nat)
    (h : construct ct st cls args = .ok (st', r)) :
    ∃ cd c nargs, lookupClass ct cls = some cd ∧
      cd.ctors.find? (fun cc => matchParams cc.params args) = some c ∧
      argsToNative st c.params args = .ok nargs ∧
      st' = ⟨(st.next, ⟨cls, c.body nargs⟩) :: st.objs, st.next + 1⟩ ∧ r = st.next := by
  unfold construct at h
  cases hcd : lookupClass ct cls with
  | none => simp only [hcd] at h; exact Except.noConfusion h
  | some cd =>
  simp only [hcd] at h
  cases hc : cd.ctors.find? (fun cc => matchParams cc.params args) with
  | none => simp only [hc] at h; exact Except.noConfusion h
  | some c =>
  simp only [hc] at h
  cases hargs : argsToNative st c.params args with
  | error e => simp only [hargs, Except.map] at h; exact Except.noConfusion h
  | ok nargs =>
  simp only [hargs, Except.map, Store.alloc, Except.ok.injEq, Prod.mk.injEq] at h
  exact ⟨cd, c, nargs, rfl, hc, hargs, h.1.symm, h.2.symm⟩

theorem callMethod_fault (ct : List ClassDecl) (st : Store) (r : Nat) (sym : String)
    (args : List HostValue) (o : Obj) (cd : ClassDecl) (m : MethodDecl)
    (nargs : List NValue) (fl : Fault)
    (ho : st.find r = some o) (hcd : lookupClass ct o.cls = some cd)
    (hm : cd.methods.find? (fun mm => boundSymbol cd.methods mm == sym) = some m)
    (hargs : argsToNative st m.params args = .ok nargs)
    (hbody : m.body o.state nargs = .error fl) :
    callMethod ct st r sym args = .error (translateFault fl) := by
  unfold callMethod
  simp only [ho, hcd, hm, hargs, hbody, bind, Except.bind]

theorem callMethod_ok (ct : List ClassDecl) (st : Store) (r : Nat) (sym : String)
    (args : List HostValue) (o : Obj) (cd : ClassDecl) (m : MethodDecl)
    (nargs : List NValue) (state' : List (String × NValue)) (ret : Option NValue)
    (log : List Int)
    (ho : st.find r = some o) (hcd : lookupClass ct o.cls = some cd)
    (hm : cd.methods.find? (fun mm => boundSymbol cd.methods mm == sym) = some m)
    (hargs : argsToNative st m.params args = .ok nargs)
    (hbody : m.body o.state nargs = .ok (state', ret, log)) :
    callMethod ct st r sym args =
      .ok ((marshalRet (st.put r ⟨o.cls, state'⟩) m.ret ret).1,
           (marshalRet (st.put r ⟨o.cls, state'⟩) m.ret ret).2, log) := by
  unfold callMethod
  simp only [ho, hcd, hm, hargs, hbody, bind, Except.bind]

theorem flat_roundtrip_list (t : TypeRef) (st : Store)
    (ih : ∀ x n, hostToNative st t x = .ok n → nativeToHostFlat n = x)
    (xs : List HostValue) (ns : List NValue)
    (h : hostListToNative st t xs = .ok ns) : nListToHost ns = xs := by
  induction xs generalizing ns with
  | nil =>
      simp only [hostListToNative, Except.ok.injEq] at h
      subst h
      rfl
  | cons x rest ihx =>
      simp only [hostListToNative] at h
      cases hv : hostToNative st t x with
      | error e => simp only [hv, bind, Except.bind] at h; exact Except.noConfusion h
      | ok v =>
      simp only [hv, bind, Except.bind] at h
      cases hvs : hostListToNative st t rest with
      | error e => simp only [hvs, bind, Except.bind] at h; exact Except.noConfusion h
      | ok vs =>
      simp only [hvs, bind, Except.bind, Except.ok.injEq] at h
      subst h
      simp only [nListToHost]
      rw [ih x v hv, ihx vs hvs]

theorem flat_roundtrip (t : TypeRef) (hf : flatType t = true) (st : Store)
    (x : HostValue) (n : NValue) (h : hostToNative st t x = .ok n) :
    nativeToHostFlat n = x :=
  match t, hf with
  | .Primitive k, _ => by
      cases k <;> cases x <;> simp only [hostToNative, Except.ok.injEq] at h <;>
        first
          | exact Except.noConfusion h
          | (subst h; rfl)
  | .Text, _ => by
      cases x <;> simp only [hostToNative, Except.ok.injEq] at h <;>
        first
          | exact Except.noConfusion h
          | (subst h; rfl)
  | .Sequence et fl, hf => by
      have hf' : flatType et = true := by simpa [flatType] using hf
      cases x <;> simp only [hostToNative, Except.map] at h <;>
        try exact Except.noConfusion h
      case vlist xs =>
        cases hl : hostListToNative st et xs with
        | error e => rw [hl] at h; exact Except.noConfusion h
        | ok ns =>
            rw [hl] at h
            simp only [Except.ok.injEq] at h
            subst h
            simp only [nativeToHostFlat]
            rw [flat_roundtrip_list et st
              (fun y m hy => flat_roundtrip et hf' st y m hy) xs ns hl]
  | .SmartHandle own c, hf => by simp [flatType] at hf
  | .ClassValue c, hf => by simp [flatType] at hf
  | .Function rt ps, hf => by simp [flatType] at hf

/-- Build an instance of a registered class in the empty store. -/
def build (cls : String) (args : List HostValue) : Except HostError (Store × Nat) :=
  construct classTable Store.empty cls args

/-- Read a field of a built instance, observing only the host value. -/
def fieldOf (b : Except HostError (Store × Nat)) (f : String) :
    Except HostError HostValue :=
  match b with
  | .ok (st, r) => (getField classTable st r f).map Prod.snd
  | .error e => .error e

/-- Call a method of a built instance, observing the marshaled return value. -/
def retOf (b : Except HostError (Store × Nat)) (sym : String) (args : List HostValue) :
    Except HostError HostValue :=
  match b with
  | .ok (st, r) => (callMethod classTable st r sym args).map fun p => p.2.1
  | .error e => .error e

/-- Call a method of a built instance, observing the host-visible callback
events it produced. -/
def eventsOf (b : Except HostError (Store × Nat)) (sym : String)
    (args : List HostValue) : Except HostError (List Int) :=
  match b with
  | .ok (st, r) => (callMethod classTable st r sym args).map fun p => p.2.2
  | .error e => .error e

/-- Call a method and keep the updated instance, for scenario chaining. -/
def stepCall (b : Except HostError (Store × Nat)) (sym : String)
    (args : List HostValue) : Except HostError (Store × Nat) :=
  match b with
  | .ok (st, r) => (callMethod classTable st r sym args).map fun p => (p.1, r)
  | .error e => .error e

/-- Set a field and keep the updated instance, for scenario chaining. -/
def stepSet (b : Except HostError (Store × Nat)) (f : String) (v : HostValue) :
    Except HostError (Store × Nat) :=
  match b with
  | .ok (st, r) => (setField classTable st r f v).map fun st' => (st', r)
  | .error e => .error e

/-- C6: constructor dispatch for the Rectangle class — `Rectangle()` yields
width 0, height 0 and name "unnamed"; `Rectangle(5.0, 3.0)` yields name
"rectangle" and `area() == 15.0`; `Rectangle(10.0, 20.0, "my_rect")` yields
`perimeter() == 60.0`. -/
theorem c6_rectangle_constructor_dispatch :
    fieldOf (build "Rectangle" []) "width" = .ok (.vfloat 0) ∧
    fieldOf (build "Rectangle" []) "height" = .ok (.vfloat 0) ∧
    fieldOf (build "Rectangle" []) "name" = .ok (.vstr "unnamed") ∧
    fieldOf (build "Rectangle" [.vfloat 5, .vfloat 3]) "name" = .ok (.vstr "rectangle") ∧
    retOf (build "Rectangle" [.vfloat 5, .vfloat 3]) "area" [] = .ok (.vfloat 15) ∧
    retOf (build "Rectangle" [.vfloat 10, .vfloat 20, .vstr "my_rect"]) "perimeter" []
      = .ok (.vfloat 60) :=
  ⟨rfl, rfl, rfl, rfl, rfl, rfl⟩

/-- C4: a class member whose base name is shared by several declarations is
bound under the base name with one short stable tag per parameter's TypeRef
category appended in parameter order, and a member whose base name is unique
in the class keeps the base name unchanged; on the Printer class this yields
exactly print_int, print_double, print_string, format_int_int,
format_double_double, format_string_string and an unchanged get_last. -/
theorem c4_overload_name_mangling (ms : List MethodDecl) (m : MethodDecl)
    (_hm : m ∈ ms) :
    (countBase ms m.baseName = 1 → boundSymbol ms m = m.baseName) ∧
    (2 ≤ countBase ms m.baseName → boundSymbol ms m = mangledName m) ∧
    boundSymbols printerDecl.methods =
      ["print_int", "print_double", "print_string", "format_int_int",
       "format_double_double", "format_string_string", "get_last"] := by
  refine ⟨fun h1 => ?_, fun h2 => ?_, ?_⟩
  · unfold boundSymbol
    rw [if_pos (by omega : countBase ms m.baseName ≤ 1)]
  · unfold boundSymbol
    rw [if_neg (by omega : ¬ countBase ms m.baseName ≤ 1)]
  · rfl

/-- Witness for C4 at the Printer class: the overloaded `print(int)` member
is bound as its mangled symbol `print_int`, and the non-overloaded
`get_last` keeps its name. -/
theorem c4_overload_name_mangling_witness :
    boundSymbol printerDecl.methods printIntDecl = "print_int" ∧
    boundSymbol printerDecl.methods getLastDecl = "get_last" := by
  have h1 := c4_overload_name_mangling printerDecl.methods printIntDecl
    (List.Mem.head _)
  have h2 := c4_overload_name_mangling printerDecl.methods getLastDecl
    (List.Mem.tail _ (List.Mem.tail _ (List.Mem.tail _ (List.Mem.tail _
      (List.Mem.tail _ (List.Mem.tail _ (List.Mem.head _)))))))
  constructor
  · rw [h1.2.1 (by decide)]
    rfl
  · rw [h2.1 (by decide)]
    rfl

/-- The calculator scenario state: a Calculator brought to value 12 by one
`add` call (`tests/e2e/methods/calculator/test_calculator.py`). -/
def calcAt12 : Except HostError (Store × Nat) :=
  stepCall (build "Calculator" []) "add" [.vfloat 12]

/-- C2: a native exception thrown by a bound method body surfaces as one
host-visible error whose message is the original native message (hence
non-empty when the native message is), never as a raw native fault; the
fault is fatal only to that call — concretely, `divide(0.0)` on a Calculator
at value 12 raises a RuntimeError carrying the native message while
`divide(3.0)` on the same state still returns 4. -/
theorem c2_native_exception_translated
    (ct : List ClassDecl) (st : Store) (r : Nat) (sym : String)
    (args : List HostValue) (o : Obj) (cd : ClassDecl) (m : MethodDecl)
    (nargs : List NValue) (msg : String)
    (ho : st.find r = some o) (hcd : lookupClass ct o.cls = some cd)
    (hm : cd.methods.find? (fun mm => boundSymbol cd.methods mm == sym) = some m)
    (hargs : argsToNative st m.params args = .ok nargs)
    (hbody : m.body o.state nargs = .error (.native msg)) (hne : msg ≠ "") :
    callMethod ct st r sym args = .error ⟨"RuntimeError", msg⟩ ∧
    (⟨"RuntimeError", msg⟩ : HostError).message ≠ "" ∧
    retOf calcAt12 "divide" [.vfloat 0] = .error ⟨"RuntimeError", "Division by zero"⟩ ∧
    retOf calcAt12 "divide" [.vfloat 3] = .ok (.vfloat 4) := by
  refine ⟨?_, hne, rfl, rfl⟩
  exact callMethod_fault ct st r sym args o cd m nargs (.native msg)
    ho hcd hm hargs hbody

/-- The concrete store holding one Calculator instance at value 12. -/
def calcStore12 : Store :=
  ⟨[(0, ⟨"Calculator", [("value", .nFloat 12)]⟩)], 1⟩

/-- Witness for C2 at the Calculator: `divide(0.0)` at value 12 surfaces the
native "Division by zero" as a host RuntimeError. -/
theorem c2_native_exception_translated_witness :
    callMethod classTable calcStore12 0 "divide" [.vfloat 0] =
      .error ⟨"RuntimeError", "Division by zero"⟩ :=
  (c2_native_exception_translated classTable calcStore12 0 "divide" [.vfloat 0]
    ⟨"Calculator", [("value", .nFloat 12)]⟩ calculatorDecl calcDivideDecl
    [.nFloat 0] "Division by zero" rfl rfl rfl rfl rfl (by decide)).1

/-- An EventEmitter whose data callback raises a host ValueError, the
configuration of Test 7 of the callback suite. -/
def emitterWithRaisingCb : Except HostError (Store × Nat) :=
  stepCall (build "EventEmitter" []) "on_data"
    [.vfunc (.raises "ValueError" "Test exception from Python")]

/-- C5 counterexample: when the callback raises a host ValueError, the error
re-surfacing at the original call site is a RuntimeError carrying the
message — not the same error that the callback raised — exactly as the
repository's own test expects (`except RuntimeError` after raising a
ValueError). -/
theorem c5_resurfaced_error_not_the_original :
    retOf emitterWithRaisingCb "emit_data" [.vint 1] =
      .error ⟨"RuntimeError", "Test exception from Python"⟩ ∧
    (⟨"RuntimeError", "Test exception from Python"⟩ : HostError) ≠
      ⟨"ValueError", "Test exception from Python"⟩ :=
  ⟨rfl, by decide⟩

/-- C5 (amended): a host exception raised by a Function-typed callback
invoked from inside a native call propagates back through the native call
frame — the call commits no partial state — and re-surfaces at the original
host call site as a host RuntimeError whose message is the original message
text intact. -/
theorem c5_callback_error_propagation
    (ct : List ClassDecl) (st : Store) (r : Nat) (sym : String)
    (args : List HostValue) (o : Obj) (cd : ClassDecl) (m : MethodDecl)
    (nargs : List NValue) (k msg : String)
    (ho : st.find r = some o) (hcd : lookupClass ct o.cls = some cd)
    (hm : cd.methods.find? (fun mm => boundSymbol cd.methods mm == sym) = some m)
    (hargs : argsToNative st m.params args = .ok nargs)
    (hbody : m.body o.state nargs = .error (.callback k msg)) :
    callMethod ct st r sym args = .error ⟨"RuntimeError", msg⟩ ∧
    retOf emitterWithRaisingCb "emit_data" [.vint 1] =
      .error ⟨"RuntimeError", "Test exception from Python"⟩ :=
  ⟨callMethod_fault ct st r sym args o cd m nargs (.callback k msg)
    ho hcd hm hargs hbody, rfl⟩

/-- The concrete store holding one EventEmitter whose data callback raises a
host ValueError. -/
def emitterStoreRaising : Store :=
  ⟨[(0, ⟨"EventEmitter",
    [("data_cb", .nFun (some (.raises "ValueError" "Test exception from Python"))),
     ("message_cb", .nFun none), ("compute_cb", .nFun none)]⟩)], 1⟩

/-- Witness for C5 at the emitter: `emit_data(1)` under a raising callback
surfaces the callback's message as a host RuntimeError. -/
theorem c5_callback_error_propagation_witness :
    callMethod classTable emitterStoreRaising 0 "emit_data" [.vint 1] =
      .error ⟨"RuntimeError", "Test exception from Python"⟩ :=
  (c5_callback_error_propagation classTable emitterStoreRaising 0 "emit_data"
    [.vint 1]
    ⟨"EventEmitter",
      [("data_cb", .nFun (some (.raises "ValueError" "Test exception from Python"))),
       ("message_cb", .nFun none), ("compute_cb", .nFun none)]⟩
    emitterDecl emitEmitDataDecl [.nInt 1] "ValueError" "Test exception from Python"
    rfl rfl rfl rfl rfl).1

/-- The Test 4/5 sequence of the callback suite: set a data callback, then
assign the host "no value" marker to it. -/
def emitterSetThenCleared : Except HostError (Store × Nat) :=
  stepCall (stepCall (build "EventEmitter" []) "on_data" [.vfunc .accum])
    "on_data" [.vnone]

/-- C9: once a Function-typed callback slot holds no functor — after
assigning the host "no value" marker or running the clear operation — the
feature-detection query answers false and emission events have no observable
effect (no events, store unchanged); the concrete set-then-clear and
clear_callbacks scenarios of the callback suite behave accordingly. -/
theorem c9_callback_clearing
    (st : Store) (r : Nat) (s : List (String × NValue))
    (ho : st.find r = some ⟨"EventEmitter", s⟩)
    (hcb : getCb s "data_cb" = none) :
    callMethod classTable st r "has_data_callback" [] = .ok (st, .vbool false, []) ∧
    (∀ v : Int, callMethod classTable st r "emit_data" [.vint v] =
      .ok (st, .vnone, [])) ∧
    retOf emitterSetThenCleared "has_data_callback" [] = .ok (.vbool false) ∧
    eventsOf emitterSetThenCleared "emit_data" [.vint 7] = .ok [] ∧
    retOf (stepCall (build "EventEmitter" []) "on_data" [.vfunc .accum])
      "has_data_callback" [] = .ok (.vbool true) ∧
    retOf (stepCall (stepCall (build "EventEmitter" []) "on_data" [.vfunc .accum])
      "clear_callbacks" []) "has_data_callback" [] = .ok (.vbool false) := by
  have hput : st.put r ⟨"EventEmitter", s⟩ = st := Store.put_self st r _ ho
  refine ⟨?_, ?_, rfl, rfl, rfl, rfl⟩
  · have hcall := callMethod_ok classTable st r "has_data_callback" []
      ⟨"EventEmitter", s⟩ emitterDecl emitHasDataDecl []
      s (some (.nBool (getCb s "data_cb").isSome)) []
      ho rfl rfl rfl rfl
    rw [hcb] at hcall
    simpa [marshalRet, nativeToHostFlat, hput] using hcall
  · intro v
    have hbody : emitEmitDataDecl.body s [.nInt v] = .ok (s, none, []) := by
      show (invokeCallback (getCb s "data_cb") v).map _ = _
      rw [hcb]
      rfl
    have hcall := callMethod_ok classTable st r "emit_data" [.vint v]
      ⟨"EventEmitter", s⟩ emitterDecl emitEmitDataDecl [.nInt v]
      s none [] ho rfl rfl rfl hbody
    simpa [marshalRet, hput] using hcall

/-- The concrete store holding one EventEmitter with every functor slot
cleared. -/
def emitterStoreCleared : Store :=
  ⟨[(0, ⟨"EventEmitter", [("data_cb", .nFun none), ("message_cb", .nFun none),
     ("compute_cb", .nFun none)]⟩)], 1⟩

/-- Witness for C9 at the cleared emitter: the feature query answers false
and an emission leaves the store unchanged with no events. -/
theorem c9_callback_clearing_witness :
    callMethod classTable emitterStoreCleared 0 "has_data_callback" [] =
      .ok (emitterStoreCleared, .vbool false, []) ∧
    callMethod classTable emitterStoreCleared 0 "emit_data" [.vint 7] =
      .ok (emitterStoreCleared, .vnone, []) :=
  ⟨(c9_callback_clearing emitterStoreCleared 0
      [("data_cb", .nFun none), ("message_cb", .nFun none), ("compute_cb", .nFun none)]
      rfl rfl).1,
   (c9_callback_clearing emitterStoreCleared 0
      [("data_cb", .nFun none), ("message_cb", .nFun none), ("compute_cb", .nFun none)]
      rfl rfl).2.1 7⟩

/-- C10: an instance freshly constructed never aliases an instance allocated
earlier: the construction leaves every earlier instance readable unchanged,
its reference is distinct from every earlier reference, and setting any
field on either instance leaves the other instance's entire native state
untouched. -/
theorem c10_instance_independence
    (ct : List ClassDecl) (st : Store) (cls : String) (args : List HostValue)
    (st' : Store) (r2 : Nat)
    (hc : construct ct st cls args = .ok (st', r2))
    (r1 : Nat) (hr1 : r1 < st.next) :
    r1 ≠ r2 ∧
    st'.find r1 = st.find r1 ∧
    (∀ f v st2, setField ct st' r2 f v = .ok st2 → st2.find r1 = st.find r1) ∧
    (∀ f v st2, setField ct st' r1 f v = .ok st2 → st2.find r2 = st'.find r2) := by
  obtain ⟨cd, c, nargs, hcd, hctor, hargs, hst, hr⟩ :=
    construct_ok_inv ct st cls args st' r2 hc
  subst hr
  subst hst
  have hfind : Store.find ⟨(st.next, ⟨cls, c.body nargs⟩) :: st.objs, st.next + 1⟩ r1
      = st.find r1 := by
    simp only [Store.find, lookupN]
    rw [if_neg (by omega)]
  refine ⟨by omega, hfind, ?_, ?_⟩
  · intro f v st2 hset
    rw [setField_frame ct _ st.next f v st2 hset r1 (by omega)]
    exact hfind
  · intro f v st2 hset
    exact setField_frame ct _ r1 f v st2 hset st.next (by omega)

/-- The native state of a freshly constructed Document. -/
def docObj : Obj :=
  ⟨"Document", [("title", .nStr ""), ("content", .nStr ""), ("preview", .nStr ""),
    ("word_count", .nInt 0)]⟩

/-- A store holding one Document instance. -/
def docStoreA : Store := ⟨[(0, docObj)], 1⟩

/-- The store after constructing a second Document instance. -/
def docStoreB : Store := ⟨[(1, docObj), (0, docObj)], 2⟩

/-- The store after setting the second Document's title. -/
def docStoreC : Store :=
  ⟨[(1, ⟨"Document", [("title", .nStr "Document 2"), ("content", .nStr ""),
     ("preview", .nStr ""), ("word_count", .nInt 0)]⟩), (0, docObj)], 2⟩

/-- Witness for C10 with two Documents: the second construction gets a fresh
reference and setting its title leaves the first instance unchanged. -/
theorem c10_instance_independence_witness :
    (0 : Nat) ≠ 1 ∧ docStoreC.find 0 = docStoreA.find 0 :=
  ⟨(c10_instance_independence classTable docStoreA "Document" [] docStoreB 1
      rfl 0 (by decide)).1,
   (c10_instance_independence classTable docStoreA "Document" [] docStoreB 1
      rfl 0 (by decide)).2.2.1 "title" (.vstr "Document 2") docStoreC rfl⟩

/-- The nested-class scenario of the person test: build a Person and an
Address, populate the Address, and assign it to the Person's ClassValue
field.  Returns the final store with the Person and Address references. -/
def personScenario : Except HostError (Store × Nat × Nat) := do
  let (st1, p) ← construct classTable Store.empty "Person" []
  let (st2, a) ← construct classTable st1 "Address" []
  let st3 ← setField classTable st2 a "street" (.vstr "123 Main St")
  let st4 ← setField classTable st3 a "city" (.vstr "Springfield")
  let st5 ← setField classTable st4 a "zip_code" (.vint 12345)
  let st6 ← setField classTable st5 p "address" (.vref a)
  .ok (st6, p, a)

/-- Read the Person's address field back, yielding the fresh copy's
reference alongside the store. -/
def personCopyRead : Except HostError (Store × Nat × Nat) := do
  let (st, p, _a) ← personScenario
  let (st2, v) ← getField classTable st p "address"
  match v with
  | .vref rc => .ok (st2, p, rc)
  | _ => .error (marshalError "address did not read back as a bound instance")

/-- Observe one field of the read-back address copy. -/
def personCopyField (f : String) : Except HostError HostValue := do
  let (st, _p, rc) ← personCopyRead
  (getField classTable st rc f).map Prod.snd

/-- Mutate the read-back copy, then observe the parent's stored city. -/
def personParentCityAfterCopyMutation : Except HostError HostValue := do
  let (st, p, rc) ← personCopyRead
  let st2 ← setField classTable st rc "city" (.vstr "Portland")
  let (st3, v) ← getField classTable st2 p "address"
  match v with
  | .vref rc2 => (getField classTable st3 rc2 "city").map Prod.snd
  | _ => .error (marshalError "address did not read back as a bound instance")

/-- Mutate the read-back copy, assign it back to the parent field, then
observe the parent's stored city. -/
def personParentCityAfterWriteBack : Except HostError HostValue := do
  let (st, p, rc) ← personCopyRead
  let st2 ← setField classTable st rc "city" (.vstr "Portland")
  let st3 ← setField classTable st2 p "address" (.vref rc)
  let (st4, v) ← getField classTable st3 p "address"
  match v with
  | .vref rc2 => (getField classTable st4 rc2 "city").map Prod.snd
  | _ => .error (marshalError "address did not read back as a bound instance")

/-- C3: reading a ClassValue-typed field returns a fresh bound copy of the
current native state, field-for-field equal to what the parent stores;
mutating that copy never changes the parent's stored value; assigning a copy
back replaces the parent's stored value with the copy's current state; and
the concrete person scenario round-trips field-for-field, keeps the parent
at "Springfield" after the copy is mutated, and moves to "Portland" only
after the mutated copy is reassigned. -/
theorem c3_class_value_copy_semantics
    (ct : List ClassDecl) (st : Store) (r : Nat) (f c : String)
    (o : Obj) (cd : ClassDecl) (fd : FieldDecl) (fs : List (String × NValue))
    (ho : st.find r = some o)
    (hcd : lookupClass ct o.cls = some cd)
    (hfd : lookupField cd f = some fd)
    (hty : fd.ty = .ClassValue c)
    (hs : lookupS o.state f = some (.nObj fs))
    (hr : r < st.next) :
    getField ct st r f = .ok ((st.alloc ⟨c, fs⟩).1, .vref st.next) ∧
    (st.alloc ⟨c, fs⟩).1.find st.next = some ⟨c, fs⟩ ∧
    (st.alloc ⟨c, fs⟩).1.find r = some o ∧
    (∀ g w st2, setField ct (st.alloc ⟨c, fs⟩).1 st.next g w = .ok st2 →
      st2.find r = some o) ∧
    (∀ st2 oc, st2.find st.next = some oc → st2.find r = some o → oc.cls = c →
      setField ct st2 r f (.vref st.next) =
        .ok (st2.put r ⟨o.cls, updateS o.state f (.nObj oc.state)⟩)) ∧
    personCopyField "street" = .ok (.vstr "123 Main St") ∧
    personCopyField "city" = .ok (.vstr "Springfield") ∧
    personCopyField "zip_code" = .ok (.vint 12345) ∧
    personParentCityAfterCopyMutation = .ok (.vstr "Springfield") ∧
    personParentCityAfterWriteBack = .ok (.vstr "Portland") := by
  have halloc_r : (st.alloc ⟨c, fs⟩).1.find r = some o := by
    rw [Store.find_alloc_ne st _ r (by omega)]
    exact ho
  refine ⟨?_, Store.find_alloc_self st _, halloc_r, ?_, ?_, rfl, rfl, rfl, rfl, rfl⟩
  · unfold getField
    simp only [ho, hcd, hfd, hs, hty]
    rfl
  · intro g w st2 hset
    rw [setField_frame ct _ st.next g w st2 hset r (by omega)]
    exact halloc_r
  · intro st2 oc h1 h2 h3
    unfold setField
    simp only [h2, hcd, hfd]
    rw [hty]
    simp only [hostToNative, h1]
    rw [if_pos h3]
    rfl

/-- The native state of the populated person of the scenario. -/
def personObj : Obj :=
  ⟨"Person", [("name", .nStr ""), ("age", .nInt 0),
    ("address", .nObj [("street", .nStr "123 Main St"), ("city", .nStr "Springfield"),
      ("zip_code", .nInt 12345)])]⟩

/-- A store holding the populated person. -/
def personStoreA : Store := ⟨[(0, personObj)], 1⟩

/-- Witness for C3 at the populated person: reading the address field
allocates a fresh bound copy at reference 1 holding exactly the stored
address state, and the parent stays readable unchanged. -/
theorem c3_class_value_copy_semantics_witness :
    getField classTable personStoreA 0 "address" =
      .ok ((personStoreA.alloc ⟨"Address",
        [("street", .nStr "123 Main St"), ("city", .nStr "Springfield"),
         ("zip_code", .nInt 12345)]⟩).1, .vref 1) ∧
    (personStoreA.alloc ⟨"Address",
      [("street", .nStr "123 Main St"), ("city", .nStr "Springfield"),
       ("zip_code", .nInt 12345)]⟩).1.find 0 = some personObj :=
  ⟨(c3_class_value_copy_semantics classTable personStoreA 0 "address" "Address"
      personObj personDecl ⟨"address", .ClassValue "Address"⟩
      [("street", .nStr "123 Main St"), ("city", .nStr "Springfield"),
       ("zip_code", .nInt 12345)]
      rfl rfl rfl rfl rfl (by decide)).1,
   (c3_class_value_copy_semantics classTable personStoreA 0 "address" "Address"
      personObj personDecl ⟨"address", .ClassValue "Address"⟩
      [("street", .nStr "123 Main St"), ("city", .nStr "Springfield"),
       ("zip_code", .nInt 12345)]
      rfl rfl rfl rfl rfl (by decide)).2.2.1⟩

/-- The container scenario of the particle test: replace the default
3-element position with a 5-element sequence. -/
def particleLen5 : Except HostError (Store × Nat) :=
  stepSet (build "Particle" []) "position"
    (.vlist [.vfloat 1, .vfloat 2, .vfloat 3, .vfloat 4, .vfloat 5])

/-- The follow-up of the particle test: replace the 3-element velocity with
a single-element sequence. -/
def particleLen1 : Except HostError (Store × Nat) :=
  stepSet particleLen5 "velocity" (.vlist [.vfloat 1])

/-- C7: assigning a host sequence of any length to a Sequence-typed field
replaces the native contents wholesale — no constraint relates the new
length to the previous one — and an immediate read-back returns exactly the
assigned sequence; concretely, the particle's 3-element position accepts a
5-element replacement and its velocity a 1-element one, each reading back
verbatim. -/
theorem c7_sequence_wholesale_replacement
    (ct : List ClassDecl) (st : Store) (r : Nat) (f : String)
    (o : Obj) (cd : ClassDecl) (fd : FieldDecl) (et : TypeRef) (fl : Option Nat)
    (w : NValue) (xs : List HostValue) (st' : Store)
    (ho : st.find r = some o)
    (hcd : lookupClass ct o.cls = some cd)
    (hfd : lookupField cd f = some fd)
    (hty : fd.ty = .Sequence et fl)
    (hflat : flatType et = true)
    (hw : lookupS o.state f = some w)
    (hset : setField ct st r f (.vlist xs) = .ok st') :
    getField ct st' r f = .ok (st', .vlist xs) ∧
    fieldOf particleLen5 "position" =
      .ok (.vlist [.vfloat 1, .vfloat 2, .vfloat 3, .vfloat 4, .vfloat 5]) ∧
    fieldOf particleLen1 "velocity" = .ok (.vlist [.vfloat 1]) := by
  obtain ⟨o2, cd2, fd2, nv, ho2, hcd2, hfd2, hcv, hst⟩ :=
    setField_ok_inv ct st r f (.vlist xs) st' hset
  rw [ho] at ho2
  injection ho2 with ho2e
  subst ho2e
  rw [hcd] at hcd2
  injection hcd2 with hcd2e
  subst hcd2e
  rw [hfd] at hfd2
  injection hfd2 with hfd2e
  subst hfd2e
  rw [hty] at hcv
  rw [show hostToNative st (.Sequence et fl) (.vlist xs)
      = (hostListToNative st et xs).map NValue.nSeq from rfl] at hcv
  cases hl : hostListToNative st et xs with
  | error e =>
      rw [hl] at hcv
      exact Except.noConfusion hcv
  | ok ns =>
  rw [hl] at hcv
  simp only [Except.map, Except.ok.injEq] at hcv
  subst hcv
  subst hst
  have hfind := Store.find_put_self st r ⟨o.cls, updateS o.state f (.nSeq ns)⟩ o ho
  have hroundtrip : nListToHost ns = xs :=
    flat_roundtrip_list et st (fun y m hy => flat_roundtrip et hflat st y m hy) xs ns hl
  refine ⟨?_, rfl, rfl⟩
  unfold getField
  simp only [hfind, hcd, hfd, lookupS_updateS_self o.state f (NValue.nSeq ns) w hw, hty]
  simp only [nativeToHostFlat, hroundtrip]

/-- The native state of a freshly constructed Particle. -/
def particleObj : Obj :=
  ⟨"Particle", [("mass", .nFloat 1),
    ("position", .nSeq [.nFloat 0, .nFloat 0, .nFloat 0]),
    ("velocity", .nSeq [.nFloat 0, .nFloat 0, .nFloat 0]),
    ("acceleration", .nSeq [.nFloat 0, .nFloat 0, .nFloat 0])]⟩

/-- A store holding one fresh Particle. -/
def particleStoreA : Store := ⟨[(0, particleObj)], 1⟩

/-- The store after the 5-element position replacement. -/
def particleStoreB : Store :=
  ⟨[(0, ⟨"Particle", [("mass", .nFloat 1),
    ("position", .nSeq [.nFloat 1, .nFloat 2, .nFloat 3, .nFloat 4, .nFloat 5]),
    ("velocity", .nSeq [.nFloat 0, .nFloat 0, .nFloat 0]),
    ("acceleration", .nSeq [.nFloat 0, .nFloat 0, .nFloat 0])]⟩)], 1⟩

/-- Witness for C7 at the Particle: after replacing the 3-element position
with 5 elements, the field reads back exactly the assigned sequence. -/
theorem c7_sequence_wholesale_replacement_witness :
    getField classTable particleStoreB 0 "position" =
      .ok (particleStoreB,
        .vlist [.vfloat 1, .vfloat 2, .vfloat 3, .vfloat 4, .vfloat 5]) :=
  (c7_sequence_wholesale_replacement classTable particleStoreA 0 "position"
    particleObj particleDecl ⟨"position", .Sequence (.Primitive .pDouble) none⟩
    (.Primitive .pDouble) none (.nSeq [.nFloat 0, .nFloat 0, .nFloat 0])
    [.vfloat 1, .vfloat 2, .vfloat 3, .vfloat 4, .vfloat 5] particleStoreB
    rfl rfl rfl rfl rfl rfl rfl).1

/-- A freshly built ResourceManager instance, both handle fields null. -/
def rmBuilt : Except HostError (Store × Nat) := build "ResourceManager" []

/-- C1 counterexample: the marshaled return of
`create_unique("test1", 42)` — a SmartHandle(exclusive) return with a
non-null handle — is a raw associative map of the pointee's fields, not a
bound instance, exactly as the repository's smart-pointer test asserts with
`isinstance(unique_result, dict)`. -/
theorem c1_return_is_map_not_instance :
    retOf rmBuilt "create_unique" [.vstr "test1", .vint 42] =
      .ok (.vdict [("name", .vstr "test1"), ("value", .vint 42)]) ∧
    (HostValue.vdict [("name", .vstr "test1"), ("value", .vint 42)]).isBoundInstance
      = false ∧
    (HostValue.vdict [("name", .vstr "test1"), ("value", .vint 42)]).isDict = true :=
  ⟨rfl, rfl, rfl⟩

/-- C1 (amended): for a field or method return of type SmartHandle
(exclusive or shared), a null native handle marshals to the host "no value"
marker, and a non-null handle marshals to an associative map (dict) holding
the pointee's field values — the map-based representation, a detached copy
rather than a bound instance; concretely the two factory returns carry
exactly the factory arguments. -/
theorem c1_smart_handle_marshals_as_map
    (ct : List ClassDecl) (st : Store) (r : Nat) (sym : String)
    (args : List HostValue) (o : Obj) (cd : ClassDecl) (m : MethodDecl)
    (nargs : List NValue) (state' : List (String × NValue)) (log : List Int)
    (own own2 : Ownership) (c : String) (p : Option (List (String × NValue)))
    (ho : st.find r = some o) (hcd : lookupClass ct o.cls = some cd)
    (hm : cd.methods.find? (fun mm => boundSymbol cd.methods mm == sym) = some m)
    (hargs : argsToNative st m.params args = .ok nargs)
    (hret : m.ret = some (.SmartHandle own c))
    (hbody : m.body o.state nargs = .ok (state', some (.nHandle own2 p), log)) :
    callMethod ct st r sym args = .ok (st.put r ⟨o.cls, state'⟩, handleToHost p, log) ∧
    handleToHost none = .vnone ∧
    (∀ fs, handleToHost (some fs) = .vdict (nFieldsToHost fs) ∧
      (handleToHost (some fs)).isBoundInstance = false) ∧
    retOf rmBuilt "create_unique" [.vstr "test1", .vint 42] =
      .ok (.vdict [("name", .vstr "test1"), ("value", .vint 42)]) ∧
    retOf rmBuilt "create_shared" [.vstr "test2", .vint 99] =
      .ok (.vdict [("name", .vstr "test2"), ("value", .vint 99)]) := by
  refine ⟨?_, rfl, fun fs => ⟨rfl, rfl⟩, rfl, rfl⟩
  have hcall := callMethod_ok ct st r sym args o cd m nargs state'
    (some (.nHandle own2 p)) log ho hcd hm hargs hbody
  rw [hret] at hcall
  exact hcall

/-- The native state of a fresh ResourceManager, both handles null. -/
def rmObjNull : Obj :=
  ⟨"ResourceManager", [("unique_data", .nHandle .exclusive none),
    ("shared_data", .nHandle .shared none)]⟩

/-- A store holding one fresh ResourceManager. -/
def rmStoreNull : Store := ⟨[(0, rmObjNull)], 1⟩

/-- Witness for amended C1 at the ResourceManager: `create_unique` returns
the pointee's fields as an associative map. -/
theorem c1_smart_handle_marshals_as_map_witness :
    callMethod classTable rmStoreNull 0 "create_unique" [.vstr "test1", .vint 42] =
      .ok (rmStoreNull.put 0 rmObjNull,
        handleToHost (some [("name", .nStr "test1"), ("value", .nInt 42)]), []) :=
  (c1_smart_handle_marshals_as_map classTable rmStoreNull 0 "create_unique"
    [.vstr "test1", .vint 42] rmObjNull resourceManagerDecl rmCreateUniqueDecl
    [.nStr "test1", .nInt 42] rmObjNull.state [] .exclusive .exclusive "Data"
    (some [("name", .nStr "test1"), ("value", .nInt 42)])
    rfl rfl rfl rfl rfl rfl).1

/-- The smart-pointer scenario of the resource test: assign a payload map to
the exclusive handle field. -/
def rmSetU : Except HostError (Store × Nat) :=
  stepSet rmBuilt "unique_data"
    (.vdict [("name", .vstr "from_python"), ("value", .vint 123)])

/-- The follow-up of the resource test: assign the "no value" marker to the
exclusive handle field, nulling the native handle. -/
def rmNulled : Except HostError (Store × Nat) :=
  stepSet rmSetU "unique_data" .vnone

/-- C8: a null SmartHandle field — exclusive or shared, whatever the pointee
class — reads back as the one uniform "no value" marker; assigning the
marker sets the native handle to null (the native getter then reports
"null"); and a handle set to a payload reads back exactly those values. -/
theorem c8_smart_handle_null_convention
    (ct : List ClassDecl) (st : Store) (r : Nat) (f : String)
    (o : Obj) (cd : ClassDecl) (fd : FieldDecl)
    (own own2 : Ownership) (c : String)
    (ho : st.find r = some o) (hcd : lookupClass ct o.cls = some cd)
    (hfd : lookupField cd f = some fd) (hty : fd.ty = .SmartHandle own c)
    (hnull : lookupS o.state f = some (.nHandle own2 none)) :
    getField ct st r f = .ok (st, .vnone) ∧
    hostToNative st (.SmartHandle own c) .vnone = .ok (.nHandle own none) ∧
    fieldOf rmBuilt "unique_data" = .ok .vnone ∧
    fieldOf rmBuilt "shared_data" = .ok .vnone ∧
    retOf rmNulled "get_unique_name" [] = .ok (.vstr "null") ∧
    retOf rmSetU "get_unique_name" [] = .ok (.vstr "from_python") ∧
    retOf rmSetU "get_unique_value" [] = .ok (.vint 123) ∧
    fieldOf rmSetU "unique_data" =
      .ok (.vdict [("name", .vstr "from_python"), ("value", .vint 123)]) := by
  refine ⟨?_, rfl, rfl, rfl, rfl, rfl, rfl, rfl⟩
  unfold getField
  simp only [ho, hcd, hfd, hnull, hty]
  rfl

/-- Witness for C8 at the fresh ResourceManager: both null handle fields —
one exclusive, one shared — read back as the same "no value" marker. -/
theorem c8_smart_handle_null_convention_witness :
    getField classTable rmStoreNull 0 "unique_data" = .ok (rmStoreNull, .vnone) ∧
    getField classTable rmStoreNull 0 "shared_data" = .ok (rmStoreNull, .vnone) :=
  ⟨(c8_smart_handle_null_convention classTable rmStoreNull 0 "unique_data"
      rmObjNull resourceManagerDecl ⟨"unique_data", .SmartHandle .exclusive "Data"⟩
      .exclusive .exclusive "Data" rfl rfl rfl rfl rfl).1,
   (c8_smart_handle_null_convention classTable rmStoreNull 0 "shared_data"
      rmObjNull resourceManagerDecl ⟨"shared_data", .SmartHandle .shared "Data"⟩
      .shared .shared "Data" rfl rfl rfl rfl rfl).1⟩

end MB
